import Mathlib

/-!
Verification of the nutri-backend admin subscription controller
(`src/controller/admin_subscription_controller.go`) and of the nutrition
proto schema (`bahan_makanan.proto`).

The controller is embedded shallowly: each Fiber handler becomes a Lean
function from the request's already-extracted inputs (path parameter
string, parsed query parameters, parsed body) and an explicit store to a
`HandlerResult` (the HTTP outcome) plus, for mutating handlers, the
updated store.  The persistence/service layer (`service.SubscriptionService`)
is not part of the provided sources, so its operations are modelled from
the specification and marked as such in their doc comments.

Machine integers: Go `int`/`int64` arithmetic in this controller never
approaches 2^63 for the inputs the claims quantify over, so they are
embedded as `Int` with Go's truncated division written `Int.tdiv`;
Go's run-time panic on integer division by zero is made explicit in the
handler embedding (`HandlerResult.panic`).
-/

/-! ### UUIDs: google/uuid `Parse` and `UUID.String`, as used by the controller -/

/-- A UUID is 16 bytes, as in github.com/google/uuid (`type UUID [16]byte`). -/
abbrev UUID := List Nat

/-- Value of an ASCII hex digit, `none` for any other character.  Models the
`xvalues` table of github.com/google/uuid (invalid bytes marked 255). -/
def hexVal (c : Char) : Option Nat :=
  if '0' ≤ c ∧ c ≤ '9' then some (c.toNat - '0'.toNat)
  else if 'a' ≤ c ∧ c ≤ 'f' then some (c.toNat - 'a'.toNat + 10)
  else if 'A' ≤ c ∧ c ≤ 'F' then some (c.toNat - 'A'.toNat + 10)
  else none

/-- Models `xtob` of github.com/google/uuid: two hex digits to one byte. -/
def xtob (c1 c2 : Char) : Option Nat :=
  match hexVal c1, hexVal c2 with
  | some h, some l => some (16 * h + l)
  | _, _ => none

/-- Reads the hex byte at positions `i, i+1` of `cs` for each `i` in `idxs`. -/
def readHexPairs (cs : List Char) : List Nat → Option (List Nat)
  | [] => some []
  | i :: rest =>
    match cs.get? i, cs.get? (i + 1) with
    | some a, some b =>
      match xtob a b with
      | some v => (readHexPairs cs rest).map (v :: ·)
      | none => none
    | _, _ => none

/-- The byte-pair start positions of the canonical
`xxxxxxxx-xxxx-xxxx-xxxx-xxxxxxxxxxxx` form, from google/uuid `Parse`. -/
def canonicalHexPositions : List Nat :=
  [0, 2, 4, 6, 9, 11, 14, 16, 19, 21, 24, 26, 28, 30, 32, 34]

/-- Parses the canonical 36-character body: hyphens at positions 8, 13, 18,
23 and hex bytes at the sixteen fixed positions, as in google/uuid `Parse`. -/
def parseCanonical (cs : List Char) : Option UUID :=
  if cs.get? 8 = some '-' ∧ cs.get? 13 = some '-' ∧
     cs.get? 18 = some '-' ∧ cs.get? 23 = some '-' then
    readHexPairs cs canonicalHexPositions
  else none

/-- ASCII-case-insensitive character comparison.  `strings.EqualFold` does
simple Unicode case folding; over the letters of `urn:uuid:` (u, r, n, i, d)
no non-ASCII character folds to any of them, so ASCII folding is exact here. -/
def charEqFold (a b : Char) : Bool :=
  a = b ∨ (a.toNat + 32 = b.toNat ∧ 'A' ≤ a ∧ a ≤ 'Z')
    ∨ (b.toNat + 32 = a.toNat ∧ 'A' ≤ b ∧ b ≤ 'Z')

/-- Pointwise `charEqFold` on equal-length lists. -/
def listEqFold : List Char → List Char → Bool
  | [], [] => true
  | a :: as, b :: bs => charEqFold a b && listEqFold as bs
  | _, _ => false

/-- Models google/uuid `Parse`: accepts the 36-character canonical form, the
45-character `urn:uuid:`-prefixed form (prefix compared case-insensitively),
the 38-character braced form (google/uuid only strips the first character;
the trailing character is never inspected), and the 32-character bare-hex
form.  Every other length is rejected.  The Go code indexes bytes while this
model indexes characters: the two agree on all-ASCII input, and both reject
any input containing a non-ASCII character (UTF-8 lead/continuation bytes are
never ASCII hex digits or hyphens). -/
def uuidParse (s : String) : Option UUID :=
  let cs := s.data
  if cs.length = 36 then parseCanonical cs
  else if cs.length = 36 + 9 then
    if listEqFold (cs.take 9) "urn:uuid:".data then parseCanonical (cs.drop 9)
    else none
  else if cs.length = 36 + 2 then parseCanonical (cs.drop 1)
  else if cs.length = 32 then
    readHexPairs cs [0, 2, 4, 6, 8, 10, 12, 14, 16, 18, 20, 22, 24, 26, 28, 30]
  else none

/-- Lower-case hex digit of a value below 16. -/
def hexDigitChar (n : Nat) : Char :=
  if n < 10 then Char.ofNat ('0'.toNat + n) else Char.ofNat ('a'.toNat + n - 10)

/-- Two lower-case hex digits of a byte. -/
def byteHex (b : Nat) : List Char :=
  [hexDigitChar (b / 16 % 16), hexDigitChar (b % 16)]

/-- Models google/uuid `UUID.String`: the canonical lower-case hex form with
hyphens after bytes 4, 6, 8 and 10. -/
def uuidString (u : UUID) : String :=
  let hx := fun (bs : List Nat) => bs.flatMap byteHex
  ⟨hx (u.take 4) ++ '-' :: hx ((u.drop 4).take 2) ++ '-' :: hx ((u.drop 6).take 2)
    ++ '-' :: hx ((u.drop 8).take 2) ++ '-' :: hx (u.drop 10)⟩

/-! ### encoding/json `Unmarshal` into `map[string]bool`

The controller stores a plan's feature flags as a JSON text and decodes it
with `json.Unmarshal([]byte(plan.Features), &features)` where
`features : map[string]bool`.  The decode succeeds exactly when the text is
a single JSON value that is `null` or an object all of whose member values
are `true`, `false` or `null` (encoding/json leaves a `null` member at the
element type's zero value, `false`, and a duplicate key keeps the last
value).  `\uXXXX` escapes are decoded without surrogate-pair combination
(an escape in the surrogate range becomes U+FFFD, as encoding/json does for
an unpaired surrogate); no claim depends on surrogate pairs in feature keys. -/

/-- JSON insignificant whitespace, as accepted by encoding/json. -/
def skipWs : List Char → List Char
  | c :: rest =>
    if c = ' ' ∨ c = '\t' ∨ c = '\n' ∨ c = '\r' then skipWs rest else c :: rest
  | [] => []

/-- Decodes a single-character JSON string escape (everything but `\u`). -/
def unescapeChar (c : Char) : Option Char :=
  if c = '"' then some '"'
  else if c = '\\' then some '\\'
  else if c = '/' then some '/'
  else if c = 'b' then some (Char.ofNat 8)
  else if c = 'f' then some (Char.ofNat 12)
  else if c = 'n' then some '\n'
  else if c = 'r' then some '\r'
  else if c = 't' then some '\t'
  else none

/-- Character for a `\uXXXX` code unit: U+FFFD in the surrogate range. -/
def codeUnitChar (n : Nat) : Char :=
  if n.isValidChar then Char.ofNat n else Char.ofNat 0xfffd

/-- Parses the body of a JSON string after the opening quote, returning the
decoded characters and the remaining input; fails on control characters and
bad escapes, as encoding/json does. -/
def parseStringBody : List Char → Option (List Char × List Char)
  | [] => none
  | '"' :: rest => some ([], rest)
  | '\\' :: rest =>
    match rest with
    | 'u' :: a :: b :: c :: d :: rest2 =>
      match hexVal a, hexVal b, hexVal c, hexVal d with
      | some x1, some x2, some x3, some x4 =>
        (parseStringBody rest2).map fun (cs, rem) =>
          (codeUnitChar (((x1 * 16 + x2) * 16 + x3) * 16 + x4) :: cs, rem)
      | _, _, _, _ => none
    | e :: rest2 =>
      match unescapeChar e with
      | some ch => (parseStringBody rest2).map fun (cs, rem) => (ch :: cs, rem)
      | none => none
    | [] => none
  | c :: rest =>
    if c.toNat < 0x20 then none
    else (parseStringBody rest).map fun (cs, rem) => (c :: cs, rem)

/-- Parses a JSON member value of Go type `bool`: `true`, `false`, or `null`
(which leaves the zero value `false`). -/
def parseBoolValue : List Char → Option (Bool × List Char)
  | 't' :: 'r' :: 'u' :: 'e' :: rest => some (true, rest)
  | 'f' :: 'a' :: 'l' :: 's' :: 'e' :: rest => some (false, rest)
  | 'n' :: 'u' :: 'l' :: 'l' :: rest => some (false, rest)
  | _ => none

/-- Sets a key in an association list, keeping one entry per key with the
last write winning, as a Go map does. -/
def mapSet (m : List (String × Bool)) (k : String) (v : Bool) : List (String × Bool) :=
  if m.any (fun p => p.1 = k) then m.map (fun p => if p.1 = k then (k, v) else p)
  else m ++ [(k, v)]

/-- Parses the members of a JSON object after the first `{` (and after ruling
out an immediate `}`), accumulating the decoded map; `fuel` bounds the number
of members and is instantiated with the input length. -/
def parseMembers (fuel : Nat) (cs : List Char) (acc : List (String × Bool)) :
    Option (List (String × Bool) × List Char) :=
  match fuel with
  | 0 => none
  | fuel + 1 =>
    match cs with
    | '"' :: rest =>
      match parseStringBody rest with
      | none => none
      | some (key, rest1) =>
        match skipWs rest1 with
        | ':' :: rest2 =>
          match parseBoolValue (skipWs rest2) with
          | none => none
          | some (v, rest3) =>
            let acc' := mapSet acc ⟨key⟩ v
            match skipWs rest3 with
            | ',' :: rest4 => parseMembers fuel (skipWs rest4) acc'
            | '}' :: rest4 => some (acc', rest4)
            | _ => none
        | _ => none
    | _ => none

/-- Models `json.Unmarshal([]byte(s), &m)` for `m : map[string]bool`:
`some` with the decoded map exactly when the whole text is one JSON value
compatible with the type (`null` leaves the map nil; it is modelled as the
empty map, which no claim distinguishes). -/
def unmarshalStringBoolMap (s : String) : Option (List (String × Bool)) :=
  match skipWs s.data with
  | '{' :: rest =>
    match skipWs rest with
    | '}' :: rest1 => if skipWs rest1 = [] then some [] else none
    | cs =>
      match parseMembers (cs.length + 1) cs [] with
      | some (m, rem) => if skipWs rem = [] then some m else none
      | none => none
  | 'n' :: 'u' :: 'l' :: 'l' :: rest => if skipWs rest = [] then some [] else none
  | _ => none

/-! ### Data model

The `model` and `validation` packages are not part of the provided sources;
their record shapes are modelled from the specification's data model
(section 3, glossary) and from the fields the controller reads. -/

/-- Modelled from the spec: a subscription is "a user's association with a
plan, carrying status and validity period" (glossary), a flat record whose
mutable soft field is `status`. -/
structure UserSubscription where
  id : UUID
  userId : UUID
  planId : UUID
  status : String
  startDate : Nat
  endDate : Nat
  deriving DecidableEq, Repr

/-- Modelled from the spec: a transaction is "a financial record tied to a
subscription" (glossary), a flat record with primitive attributes. -/
structure Transaction where
  id : UUID
  subscriptionId : UUID
  amount : Int
  status : String
  deriving DecidableEq, Repr

/-- A subscription plan record, with exactly the fields the controller
reads: `ID`, `Name`, `Price`, `Description`, `AIscanLimit`, `ValidityDays`,
`Features` (a JSON text of feature flags) and `IsActive`. -/
structure SubscriptionPlan where
  id : UUID
  name : String
  price : Int
  description : String
  aiScanLimit : Int
  validityDays : Int
  features : String
  isActive : Bool
  deriving DecidableEq, Repr

/-- Modelled from the spec: the body of `PATCH /admin/subscriptions/{id}`,
"Updates a user subscription (plan, status, etc.)" — optional new plan,
status and validity bounds. -/
structure UpdateSubscription where
  planId : Option UUID
  status : Option String
  startDate : Option Nat
  endDate : Option Nat
  deriving DecidableEq, Repr

/-- The body of `PATCH /admin/subscriptions/{id}/payment-status`; the
controller reads its `Status` field. -/
structure UpdatePaymentStatus where
  status : String
  deriving DecidableEq, Repr

/-- Modelled from the spec: the body of
`PATCH /admin/subscription-plans/{plan_id}`, "Updates a subscription plan
(name, price, features, etc.)" — every plan attribute optional. -/
structure UpdateSubscriptionPlan where
  name : Option String
  price : Option Int
  description : Option String
  aiScanLimit : Option Int
  validityDays : Option Int
  features : Option String
  isActive : Option Bool
  deriving DecidableEq, Repr

/-- The database state reached through the service layer: each entity keyed
by its UUID. -/
structure Store where
  subscriptions : List (UUID × UserSubscription)
  transactions : List (UUID × Transaction)
  plans : List (UUID × SubscriptionPlan)
  deriving DecidableEq, Repr

/-- Replaces the value at a key of an association list, leaving every other
entry unchanged. -/
def updateAssoc (l : List (UUID × α)) (k : UUID) (v : α) : List (UUID × α) :=
  l.map fun p => if p.1 = k then (k, v) else p

/-- Removes every entry at a key of an association list. -/
def removeAssoc (l : List (UUID × α)) (k : UUID) : List (UUID × α) :=
  l.filter fun p => p.1 ≠ k

/-! ### Service layer

`service.SubscriptionService` is not part of the provided sources.  Each
operation is modelled from the specification: handlers "delegate to a single
data-access call" (section 4) whose failure modes are "404 for missing
records" (section 7); the paginated listings return at most `limit` records
(section 8) with `totalResults` the total match count. -/

/-- An error as built by `fiber.NewError(status, message)`; service-layer
failures surface through the same shape. -/
structure FiberError where
  status : Int
  message : String
  deriving DecidableEq, Repr

/-- Modelled from the spec: the paginated subscription listing for
`GET /admin/subscriptions` — the records matching the status filter (empty
filter matches all), one page of at most `limit` of them, and the total
match count. -/
def SubscriptionService.getAllUserSubscriptions (st : Store) (page limit : Int)
    (status : String) : List UserSubscription × Int :=
  let matching := (st.subscriptions.map Prod.snd).filter
    fun s => status == "" || s.status == status
  ((matching.drop ((page - 1) * limit).toNat).take limit.toNat,
    (matching.length : Int))

/-- Modelled from the spec: single-record fetch by primary key, "404 for
missing records". -/
def SubscriptionService.getUserSubscriptionByID (st : Store) (id : UUID) :
    Except FiberError UserSubscription :=
  match st.subscriptions.lookup id with
  | some sub => .ok sub
  | none => .error ⟨404, "Subscription not found"⟩

/-- Modelled from the spec: applies the present fields of the update body to
the stored record and persists it; "404 for missing records". -/
def SubscriptionService.updateUserSubscription (st : Store) (id : UUID)
    (req : UpdateSubscription) : Except FiberError (UserSubscription × Store) :=
  match st.subscriptions.lookup id with
  | none => .error ⟨404, "Subscription not found"⟩
  | some sub =>
    let sub' : UserSubscription :=
      { sub with
        planId := req.planId.getD sub.planId
        status := req.status.getD sub.status
        startDate := req.startDate.getD sub.startDate
        endDate := req.endDate.getD sub.endDate }
    .ok (sub', { st with subscriptions := updateAssoc st.subscriptions id sub' })

/-- Modelled from the spec: removes the record; "404 for missing records". -/
def SubscriptionService.deleteUserSubscription (st : Store) (id : UUID) :
    Except FiberError Store :=
  match st.subscriptions.lookup id with
  | none => .error ⟨404, "Subscription not found"⟩
  | some _ => .ok { st with subscriptions := removeAssoc st.subscriptions id }

/-- Modelled from the spec: the transactions tied to one subscription. -/
def SubscriptionService.getTransactionsBySubscriptionID (st : Store) (id : UUID) :
    Except FiberError (List Transaction) :=
  .ok ((st.transactions.map Prod.snd).filter fun t => t.subscriptionId = id)

/-- Modelled from the spec: sets the payment status of the stored
subscription — the one soft status field — and persists it; "404 for
missing records". -/
def SubscriptionService.updatePaymentStatus (st : Store) (id : UUID)
    (status : String) : Except FiberError (UserSubscription × Store) :=
  match st.subscriptions.lookup id with
  | none => .error ⟨404, "Subscription not found"⟩
  | some sub =>
    let sub' := { sub with status := status }
    .ok (sub', { st with subscriptions := updateAssoc st.subscriptions id sub' })

/-- Modelled from the spec: the paginated transaction listing for
`GET /admin/transactions` — one page of at most `limit` records and the
total count. -/
def SubscriptionService.getAllTransactions (st : Store) (page limit : Int) :
    List Transaction × Int :=
  let ts := st.transactions.map Prod.snd
  ((ts.drop ((page - 1) * limit).toNat).take limit.toNat, (ts.length : Int))

/-- Modelled from the spec: single transaction fetch by primary key. -/
def SubscriptionService.getTransactionByID (st : Store) (id : UUID) :
    Except FiberError Transaction :=
  match st.transactions.lookup id with
  | some t => .ok t
  | none => .error ⟨404, "Transaction not found"⟩

/-- Modelled from the spec: single plan fetch by primary key. -/
def SubscriptionService.getSubscriptionPlanByID (st : Store) (id : UUID) :
    Except FiberError SubscriptionPlan :=
  match st.plans.lookup id with
  | some p => .ok p
  | none => .error ⟨404, "Subscription plan not found"⟩

/-- Modelled from the spec: applies the present fields of the update body to
the stored plan and persists it; "404 for missing records". -/
def SubscriptionService.updateSubscriptionPlan (st : Store) (id : UUID)
    (req : UpdateSubscriptionPlan) : Except FiberError (SubscriptionPlan × Store) :=
  match st.plans.lookup id with
  | none => .error ⟨404, "Subscription plan not found"⟩
  | some p =>
    let p' : SubscriptionPlan :=
      { p with
        name := req.name.getD p.name
        price := req.price.getD p.price
        description := req.description.getD p.description
        aiScanLimit := req.aiScanLimit.getD p.aiScanLimit
        validityDays := req.validityDays.getD p.validityDays
        features := req.features.getD p.features
        isActive := req.isActive.getD p.isActive }
    .ok (p', { st with plans := updateAssoc st.plans id p' })

/-! ### Response envelopes and handler outcomes -/

/-- Helper of the controller: `fmt.Sprintf("Rp %d", amount)`. -/
def formatCurrency (amount : Int) : String :=
  "Rp " ++ toString amount

/-- `ctx.QueryInt(name, default)`: the parsed integer query parameter, or
the default when the parameter is absent or unparseable (the absent and
unparseable cases are folded into `none`). -/
def queryInt (param : Option Int) (d : Int) : Int :=
  param.getD d

/-- `ctx.Query(name, default)` for string query parameters. -/
def queryStr (param : Option String) (d : String) : String :=
  param.getD d

/-- `response.Common`. -/
structure Common where
  status : String
  message : String
  deriving DecidableEq, Repr

/-- `response.SuccessWithPaginateSubscriptions`. -/
structure SuccessWithPaginateSubscriptions where
  status : String
  message : String
  results : List UserSubscription
  page : Int
  limit : Int
  totalPages : Int
  totalResults : Int
  deriving DecidableEq, Repr

/-- `response.SuccessWithSubscription`. -/
structure SuccessWithSubscription where
  status : String
  message : String
  data : UserSubscription
  deriving DecidableEq, Repr

/-- `response.SuccessWithTransactions`, as filled by `GetAllTransactions`
(the pagination fields; `GetTransactionLogs` leaves them at their zero
values). -/
structure SuccessWithTransactions where
  status : String
  message : String
  data : List Transaction
  page : Int
  limit : Int
  totalPages : Int
  totalResults : Int
  deriving DecidableEq, Repr

/-- `response.SuccessWithTransaction`. -/
structure SuccessWithTransaction where
  status : String
  message : String
  data : Transaction
  deriving DecidableEq, Repr

/-- `response.SubscriptionPlanResponse`. -/
structure SubscriptionPlanResponse where
  id : String
  name : String
  price : Int
  priceFormatted : String
  description : String
  aiScanLimit : Int
  validityDays : Int
  features : List (String × Bool)
  isActive : Bool
  deriving DecidableEq, Repr

/-- `response.SuccessWithSubscriptionPlan`. -/
structure SuccessWithSubscriptionPlan where
  status : String
  message : String
  data : SubscriptionPlanResponse
  deriving DecidableEq, Repr

/-- Outcome of one handler invocation: a run-time panic (Go's behaviour on
integer division by zero), an error response (`fiber.NewError` or a
propagated service error), or a success response with its HTTP status. -/
inductive HandlerResult (α : Type) where
  | panic : HandlerResult α
  | error : Int → String → HandlerResult α
  | ok : Int → α → HandlerResult α
  deriving DecidableEq, Repr

/-! ### Handlers of `AdminSubscriptionController`

Each is a direct transcription of the Go handler body.  Handlers that call
a mutating service operation also return the store the request leaves
behind; the two body-taking subscription handlers additionally return
whether the service operation was invoked (`UpdatePaymentStatus`'s
activity logging is out of the specification's scope and is not modelled). -/

/-- `GET /admin/subscriptions` (`GetAllUserSubscriptions`).  The division
`totalResults / int64(query.Limit)` panics in Go when the effective limit
is `0`, which the embedding makes explicit. -/
def AdminSubscriptionController.getAllUserSubscriptions (st : Store)
    (pageQ limitQ : Option Int) (statusQ : Option String) :
    HandlerResult SuccessWithPaginateSubscriptions :=
  let page := queryInt pageQ 1
  let limit := queryInt limitQ 10
  let status := queryStr statusQ ""
  let res := SubscriptionService.getAllUserSubscriptions st page limit status
  if limit = 0 then .panic
  else .ok 200
    { status := "success"
      message := "User subscriptions retrieved successfully"
      results := res.1
      page := page
      limit := limit
      totalPages := Int.tdiv res.2 limit + 1
      totalResults := res.2 }

/-- `GET /admin/subscriptions/{subscription_id}` (`GetUserSubscriptionDetails`). -/
def AdminSubscriptionController.getUserSubscriptionDetails (st : Store)
    (idParam : String) : HandlerResult SuccessWithSubscription :=
  if idParam = "" then .error 400 "Subscription ID is required"
  else
    match uuidParse idParam with
    | none => .error 400 "Invalid subscription ID format"
    | some subscriptionID =>
      match SubscriptionService.getUserSubscriptionByID st subscriptionID with
      | .error e => .error e.status e.message
      | .ok subscription =>
        .ok 200
          { status := "success"
            message := "User subscription details retrieved successfully"
            data := subscription }

/-- `PATCH /admin/subscriptions/{subscription_id}` (`UpdateUserSubscription`);
the final component records whether the service operation was invoked. -/
def AdminSubscriptionController.updateUserSubscription (st : Store)
    (idParam : String) (body : Option UpdateSubscription) :
    HandlerResult SuccessWithSubscription × Store × Bool :=
  if idParam = "" then (.error 400 "Subscription ID is required", st, false)
  else
    match uuidParse idParam with
    | none => (.error 400 "Invalid subscription ID format", st, false)
    | some subscriptionID =>
      match body with
      | none => (.error 400 "Invalid request body", st, false)
      | some req =>
        match SubscriptionService.updateUserSubscription st subscriptionID req with
        | .error e => (.error e.status e.message, st, true)
        | .ok (subscription, st') =>
          (.ok 200
            { status := "success"
              message := "User subscription updated successfully"
              data := subscription }, st', true)

/-- `DELETE /admin/subscriptions/{subscription_id}` (`DeleteUserSubscription`). -/
def AdminSubscriptionController.deleteUserSubscription (st : Store)
    (idParam : String) : HandlerResult Common × Store :=
  if idParam = "" then (.error 400 "Subscription ID is required", st)
  else
    match uuidParse idParam with
    | none => (.error 400 "Invalid subscription ID format", st)
    | some subscriptionID =>
      match SubscriptionService.deleteUserSubscription st subscriptionID with
      | .error e => (.error e.status e.message, st)
      | .ok st' =>
        (.ok 200
          { status := "success"
            message := "User subscription deleted successfully" }, st')

/-- `GET /admin/subscriptions/{subscription_id}/transactions`
(`GetTransactionLogs`); the pagination fields stay at their zero values. -/
def AdminSubscriptionController.getTransactionLogs (st : Store)
    (idParam : String) : HandlerResult SuccessWithTransactions :=
  if idParam = "" then .error 400 "Subscription ID is required"
  else
    match uuidParse idParam with
    | none => .error 400 "Invalid subscription ID format"
    | some subscriptionID =>
      match SubscriptionService.getTransactionsBySubscriptionID st subscriptionID with
      | .error e => .error e.status e.message
      | .ok transactions =>
        .ok 200
          { status := "success"
            message := "Transaction logs retrieved successfully"
            data := transactions
            page := 0, limit := 0, totalPages := 0, totalResults := 0 }

/-- `PATCH /admin/subscriptions/{subscription_id}/payment-status`
(`UpdatePaymentStatus`); the final component records whether the service
operation was invoked. -/
def AdminSubscriptionController.updatePaymentStatus (st : Store)
    (idParam : String) (body : Option UpdatePaymentStatus) :
    HandlerResult SuccessWithSubscription × Store × Bool :=
  if idParam = "" then (.error 400 "Subscription ID is required", st, false)
  else
    match uuidParse idParam with
    | none => (.error 400 "Invalid subscription ID format", st, false)
    | some subscriptionID =>
      match body with
      | none => (.error 400 "Invalid request body", st, false)
      | some req =>
        match SubscriptionService.updatePaymentStatus st subscriptionID req.status with
        | .error e => (.error e.status e.message, st, true)
        | .ok (subscription, st') =>
          (.ok 200
            { status := "success"
              message := "Payment status updated successfully"
              data := subscription }, st', true)

/-- `GET /admin/transactions` (`GetAllTransactions`).  As in
`GetAllUserSubscriptions`, `int64(totalResults)/int64(limit)` panics in Go
when the effective limit is `0`. -/
def AdminSubscriptionController.getAllTransactions (st : Store)
    (pageQ limitQ : Option Int) : HandlerResult SuccessWithTransactions :=
  let page := queryInt pageQ 1
  let limit := queryInt limitQ 10
  let res := SubscriptionService.getAllTransactions st page limit
  if limit = 0 then .panic
  else .ok 200
    { status := "success"
      message := "All transaction logs retrieved successfully"
      data := res.1
      page := page
      limit := limit
      totalPages := Int.tdiv res.2 limit + 1
      totalResults := res.2 }

/-- `GET /admin/transactions/{id}` (`GetTransactionByID`). -/
def AdminSubscriptionController.getTransactionByID (st : Store)
    (idParam : String) : HandlerResult SuccessWithTransaction :=
  if idParam = "" then .error 400 "Transaction ID is required"
  else
    match uuidParse idParam with
    | none => .error 400 "Invalid transaction ID format"
    | some transactionID =>
      match SubscriptionService.getTransactionByID st transactionID with
      | .error e => .error e.status e.message
      | .ok transaction =>
        .ok 200
          { status := "success"
            message := "Transaction details retrieved successfully"
            data := transaction }

/-- `GET /admin/subscription-plans/{plan_id}` (`GetSubscriptionPlanByID`). -/
def AdminSubscriptionController.getSubscriptionPlanByID (st : Store)
    (idParam : String) : HandlerResult SuccessWithSubscriptionPlan :=
  if idParam = "" then .error 400 "Plan ID is required"
  else
    match uuidParse idParam with
    | none => .error 400 "Invalid plan ID format"
    | some planID =>
      match SubscriptionService.getSubscriptionPlanByID st planID with
      | .error e => .error e.status e.message
      | .ok plan =>
        match unmarshalStringBoolMap plan.features with
        | none => .error 500 "Error parsing plan features"
        | some features =>
          .ok 200
            { status := "success"
              message := "Subscription plan details retrieved successfully"
              data :=
                { id := uuidString plan.id
                  name := plan.name
                  price := plan.price
                  priceFormatted := formatCurrency plan.price
                  description := plan.description
                  aiScanLimit := plan.aiScanLimit
                  validityDays := plan.validityDays
                  features := features
                  isActive := plan.isActive } }

/-- `PATCH /admin/subscription-plans/{plan_id}` (`UpdateSubscriptionPlan`). -/
def AdminSubscriptionController.updateSubscriptionPlan (st : Store)
    (idParam : String) (body : Option UpdateSubscriptionPlan) :
    HandlerResult SuccessWithSubscriptionPlan × Store :=
  if idParam = "" then (.error 400 "Plan ID is required", st)
  else
    match uuidParse idParam with
    | none => (.error 400 "Invalid plan ID format", st)
    | some planID =>
      match body with
      | none => (.error 400 "Invalid request body", st)
      | some req =>
        match SubscriptionService.updateSubscriptionPlan st planID req with
        | .error e => (.error e.status e.message, st)
        | .ok (plan, st') =>
          match unmarshalStringBoolMap plan.features with
          | none => (.error 500 "Error parsing plan features", st')
          | some features =>
            (.ok 200
              { status := "success"
                message := "Subscription plan updated successfully"
                data :=
                  { id := uuidString plan.id
                    name := plan.name
                    price := plan.price
                    priceFormatted := formatCurrency plan.price
                    description := plan.description
                    aiScanLimit := plan.aiScanLimit
                    validityDays := plan.validityDays
                    features := features
                    isActive := plan.isActive } }, st')

/-! ### The nutrition proto schema (`bahan_makanan.proto`) -/

/-- Scalar types appearing in the `BahanMakanan` message. -/
inductive ProtoScalar where
  | u32 : ProtoScalar
  | str : ProtoScalar
  | dbl : ProtoScalar
  deriving DecidableEq, Repr

/-- One field of a proto message: name, field number, scalar type, and
whether it is marked `optional`. -/
structure ProtoField where
  name : String
  number : Nat
  scalar : ProtoScalar
  optionalField : Bool
  deriving DecidableEq, Repr

/-- The fields of `message BahanMakanan`, transcribed from the proto. -/
def bahanMakananFields : List ProtoField :=
  [⟨"id", 1, .u32, false⟩,
   ⟨"kode", 2, .str, false⟩,
   ⟨"nama_bahan_makanan", 3, .str, false⟩,
   ⟨"air_g", 4, .dbl, false⟩,
   ⟨"energi_kal", 5, .dbl, false⟩,
   ⟨"protein_g", 6, .dbl, false⟩,
   ⟨"lemak_g", 7, .dbl, false⟩,
   ⟨"karbohidrat_g", 8, .dbl, false⟩,
   ⟨"serat_g", 9, .dbl, true⟩,
   ⟨"abu_g", 10, .dbl, false⟩,
   ⟨"kalsium_ca_mg", 11, .dbl, true⟩,
   ⟨"fosfor_p_mg", 12, .dbl, true⟩,
   ⟨"besi_fe_mg", 13, .dbl, true⟩,
   ⟨"natrium_na_mg", 14, .dbl, true⟩,
   ⟨"kalium_ka_mg", 15, .dbl, true⟩,
   ⟨"tembaga_cu_mg", 16, .dbl, true⟩,
   ⟨"seng_zn_mg", 17, .dbl, true⟩,
   ⟨"retinol_vit_a_mcg", 18, .dbl, true⟩,
   ⟨"beta_karoten_mcg", 19, .dbl, true⟩,
   ⟨"karoten_total_mcg", 20, .dbl, true⟩,
   ⟨"thiamin_vit_b1_mg", 21, .dbl, true⟩,
   ⟨"riboflavin_vit_b2_mg", 22, .dbl, true⟩,
   ⟨"niasin_mg", 23, .dbl, true⟩,
   ⟨"vitamin_c_mg", 24, .dbl, true⟩,
   ⟨"bdd_persen", 25, .dbl, false⟩,
   ⟨"mentah_olahan", 26, .str, false⟩,
   ⟨"kelompok_makanan", 27, .str, false⟩]

/-- One RPC of a proto service: its name and the names of its request and
response messages. -/
structure ProtoRpc where
  name : String
  request : String
  response : String
  deriving DecidableEq, Repr

/-- The RPCs of `service BahanMakananService`, transcribed from the proto. -/
def bahanMakananServiceRpcs : List ProtoRpc :=
  [⟨"GetAllBahanMakanan", "Empty", "ListBahanMakananResponse"⟩,
   ⟨"GetBahanMakananByKode", "GetBahanMakananRequest", "BahanMakananResponse"⟩,
   ⟨"GetBahanMakananById", "GetBahanMakananByIdRequest", "BahanMakananResponse"⟩,
   ⟨"GetBahanMakananByMentahOlahan", "GetBahanMakananByMentahOlahanRequest",
     "ListBahanMakananResponse"⟩,
   ⟨"GetBahanMakananByKelompok", "GetBahanMakananByKelompokRequest",
     "ListBahanMakananResponse"⟩,
   ⟨"UpdateBahanMakanan", "UpdateBahanMakananRequest", "BahanMakananResponse"⟩]

/-- The response messages of the service carry only `BahanMakanan` entities:
one per `BahanMakananResponse`, a list in `ListBahanMakananResponse`. -/
def rpcReturnsBahanMakanan (r : ProtoRpc) : Bool :=
  r.response == "BahanMakananResponse" || r.response == "ListBahanMakananResponse"

/-! ### Concrete fixtures used by the witnesses -/

/-- The bytes of the UUID `123e4567-e89b-12d3-a456-426614174000`. -/
def sampleID : UUID :=
  [0x12, 0x3e, 0x45, 0x67, 0xe8, 0x9b, 0x12, 0xd3,
   0xa4, 0x56, 0x42, 0x66, 0x14, 0x17, 0x40, 0x00]

/-- The canonical text of `sampleID`. -/
def sampleIDStr : String := "123e4567-e89b-12d3-a456-426614174000"

/-- A sample stored subscription. -/
def sampleSub : UserSubscription :=
  { id := sampleID, userId := sampleID, planId := sampleID
    status := "pending", startDate := 100, endDate := 130 }

/-- A sample stored transaction. -/
def sampleTx : Transaction :=
  { id := sampleID, subscriptionId := sampleID, amount := 50000, status := "paid" }

/-- A sample stored plan whose feature flags are well-formed JSON. -/
def samplePlan : SubscriptionPlan :=
  { id := sampleID, name := "Pro", price := 50000, description := "Pro plan"
    aiScanLimit := 10, validityDays := 30
    features := "\x7b\"ai_scan\":true\x7d", isActive := true }

/-- A sample stored plan whose feature flags are not valid JSON. -/
def badFeaturesPlan : SubscriptionPlan :=
  { samplePlan with features := "not json" }

/-- A store holding `sampleSub`, `sampleTx` and `samplePlan` under `sampleID`. -/
def sampleStore : Store :=
  { subscriptions := [(sampleID, sampleSub)]
    transactions := [(sampleID, sampleTx)]
    plans := [(sampleID, samplePlan)] }

/-- `sampleStore` with the plan's feature flags replaced by invalid JSON. -/
def badFeaturesStore : Store :=
  { sampleStore with plans := [(sampleID, badFeaturesPlan)] }

/-- Whether a handler outcome is an HTTP 400 error with some plain message. -/
def isBadRequest {α : Type} : HandlerResult α → Bool
  | .error 400 _ => true
  | _ => false

/-! ### Association-list lemmas -/

theorem lookup_updateAssoc {α : Type} (l : List (UUID × α)) (k : UUID) (v w : α)
    (h : l.lookup k = some w) : (updateAssoc l k v).lookup k = some v := by
  induction l with
  | nil => simp [List.lookup] at h
  | cons p t ih =>
    obtain ⟨a, b⟩ := p
    by_cases hk : k = a
    · subst hk
      simp [updateAssoc, List.lookup_cons]
    · have ha : ¬a = k := fun h' => hk h'.symm
      simp only [List.lookup_cons, beq_false_of_ne hk] at h
      simpa [updateAssoc, List.lookup_cons, ha, beq_false_of_ne hk] using ih h

theorem lookup_removeAssoc {α : Type} (l : List (UUID × α)) (k : UUID) :
    (removeAssoc l k).lookup k = none := by
  induction l with
  | nil => simp [removeAssoc, List.lookup]
  | cons p t ih =>
    obtain ⟨a, b⟩ := p
    by_cases hk : a = k
    · subst hk
      simpa [removeAssoc] using ih
    · have hk' : ¬k = a := fun h' => hk h'.symm
      simpa [removeAssoc, hk, List.lookup_cons, beq_false_of_ne hk'] using ih

/-! ### Claims -/

/-- C1: for every paginated list request (`GET /admin/subscriptions` and
`GET /admin/transactions`) with page `p` and effective limit `l ≥ 1`, the
response contains at most `l` records and its `totalPages` field equals
`totalResults` divided by `l` using integer division, plus one. -/
theorem pagination_totalPages_correct (st : Store) (pageQ limitQ : Option Int)
    (statusQ : Option String) (l c1 c2 : Int)
    (r1 : SuccessWithPaginateSubscriptions) (r2 : SuccessWithTransactions)
    (hl : queryInt limitQ 10 = l) (h1 : 1 ≤ l)
    (e1 : AdminSubscriptionController.getAllUserSubscriptions st pageQ limitQ statusQ =
      .ok c1 r1)
    (e2 : AdminSubscriptionController.getAllTransactions st pageQ limitQ = .ok c2 r2) :
    r1.limit = l ∧ (r1.results.length : Int) ≤ l ∧
    r1.totalPages = Int.tdiv r1.totalResults l + 1 ∧
    r2.limit = l ∧ (r2.data.length : Int) ≤ l ∧
    r2.totalPages = Int.tdiv r2.totalResults l + 1 := by
  have hne : ¬l = 0 := by omega
  have hbound : ∀ (α : Type) (xs : List α),
      ((xs.take l.toNat).length : Int) ≤ l := by
    intro α xs
    calc ((xs.take l.toNat).length : Int)
        ≤ (l.toNat : Int) := by exact_mod_cast List.length_take_le _ _
      _ = l := Int.toNat_of_nonneg (by omega)
  subst hl
  simp only [AdminSubscriptionController.getAllUserSubscriptions, if_neg hne] at e1
  simp only [AdminSubscriptionController.getAllTransactions, if_neg hne] at e2
  injection e1 with hc1 hr1
  injection e2 with hc2 hr2
  subst hr1
  subst hr2
  refine ⟨rfl, ?_, rfl, rfl, ?_, rfl⟩
  · simp only [SubscriptionService.getAllUserSubscriptions]
    exact hbound _ _
  · simp only [SubscriptionService.getAllTransactions]
    exact hbound _ _

/-- Witness for C1 at a concrete store, page 1 and limit 5. -/
theorem pagination_totalPages_correct_witness :
    SuccessWithPaginateSubscriptions.limit
        ⟨"success", "User subscriptions retrieved successfully",
         [sampleSub], 1, 5, 1, 1⟩ = 5 ∧
    ((SuccessWithPaginateSubscriptions.results
        ⟨"success", "User subscriptions retrieved successfully",
         [sampleSub], 1, 5, 1, 1⟩).length : Int) ≤ 5 ∧
    SuccessWithPaginateSubscriptions.totalPages
        ⟨"success", "User subscriptions retrieved successfully",
         [sampleSub], 1, 5, 1, 1⟩ =
      Int.tdiv (SuccessWithPaginateSubscriptions.totalResults
        ⟨"success", "User subscriptions retrieved successfully",
         [sampleSub], 1, 5, 1, 1⟩) 5 + 1 ∧
    SuccessWithTransactions.limit
        ⟨"success", "All transaction logs retrieved successfully",
         [sampleTx], 1, 5, 1, 1⟩ = 5 ∧
    ((SuccessWithTransactions.data
        ⟨"success", "All transaction logs retrieved successfully",
         [sampleTx], 1, 5, 1, 1⟩).length : Int) ≤ 5 ∧
    SuccessWithTransactions.totalPages
        ⟨"success", "All transaction logs retrieved successfully",
         [sampleTx], 1, 5, 1, 1⟩ =
      Int.tdiv (SuccessWithTransactions.totalResults
        ⟨"success", "All transaction logs retrieved successfully",
         [sampleTx], 1, 5, 1, 1⟩) 5 + 1 :=
  pagination_totalPages_correct sampleStore (some 1) (some 5) (some "") 5 200 200
    ⟨"success", "User subscriptions retrieved successfully", [sampleSub], 1, 5, 1, 1⟩
    ⟨"success", "All transaction logs retrieved successfully", [sampleTx], 1, 5, 1, 1⟩
    (by decide) (by decide) (by decide) (by decide)

/-- C2: the `totalPages` computation divides by the caller-supplied limit
with no zero guard: for every limit `l ≥ 1` both paginated handlers complete
without a panic, while an explicit `limit=0` query parameter (which bypasses
the default of 10) makes both handlers hit Go's integer division by zero. -/
theorem totalPages_division_by_zero (st : Store) (pageQ : Option Int)
    (statusQ : Option String) (l : Int) (h1 : 1 ≤ l) :
    (AdminSubscriptionController.getAllUserSubscriptions st pageQ (some l) statusQ ≠
        .panic ∧
     AdminSubscriptionController.getAllTransactions st pageQ (some l) ≠ .panic) ∧
    (AdminSubscriptionController.getAllUserSubscriptions st pageQ (some 0) statusQ =
        .panic ∧
     AdminSubscriptionController.getAllTransactions st pageQ (some 0) = .panic) := by
  have hne : ¬queryInt (some l) 10 = 0 := by simp [queryInt]; omega
  refine ⟨⟨?_, ?_⟩, ?_, ?_⟩
  · simp only [AdminSubscriptionController.getAllUserSubscriptions, if_neg hne]
    intro h
    cases h
  · simp only [AdminSubscriptionController.getAllTransactions, if_neg hne]
    intro h
    cases h
  · simp [AdminSubscriptionController.getAllUserSubscriptions, queryInt]
  · simp [AdminSubscriptionController.getAllTransactions, queryInt]

/-- Witness for C2 at a concrete store, page 1 and limits 3 and 0. -/
theorem totalPages_division_by_zero_witness :
    (AdminSubscriptionController.getAllUserSubscriptions sampleStore (some 1)
        (some 3) (some "") ≠ .panic ∧
     AdminSubscriptionController.getAllTransactions sampleStore (some 1)
        (some 3) ≠ .panic) ∧
    (AdminSubscriptionController.getAllUserSubscriptions sampleStore (some 1)
        (some 0) (some "") = .panic ∧
     AdminSubscriptionController.getAllTransactions sampleStore (some 1)
        (some 0) = .panic) :=
  totalPages_division_by_zero sampleStore (some 1) (some "") 3 (by decide)

/-- C3: for every malformed (non-UUID, non-empty) identifier path parameter,
every endpoint taking that parameter returns HTTP 400 with an
"Invalid ... format" message (and mutating handlers neither change the store
nor reach the service). -/
theorem malformed_uuid_returns_400 (st : Store) (idParam : String)
    (body1 : Option UpdateSubscription) (body2 : Option UpdatePaymentStatus)
    (body3 : Option UpdateSubscriptionPlan)
    (hne : idParam ≠ "") (hp : uuidParse idParam = none) :
    AdminSubscriptionController.getUserSubscriptionDetails st idParam =
      .error 400 "Invalid subscription ID format" ∧
    AdminSubscriptionController.updateUserSubscription st idParam body1 =
      (.error 400 "Invalid subscription ID format", st, false) ∧
    AdminSubscriptionController.deleteUserSubscription st idParam =
      (.error 400 "Invalid subscription ID format", st) ∧
    AdminSubscriptionController.getTransactionLogs st idParam =
      .error 400 "Invalid subscription ID format" ∧
    AdminSubscriptionController.updatePaymentStatus st idParam body2 =
      (.error 400 "Invalid subscription ID format", st, false) ∧
    AdminSubscriptionController.getTransactionByID st idParam =
      .error 400 "Invalid transaction ID format" ∧
    AdminSubscriptionController.getSubscriptionPlanByID st idParam =
      .error 400 "Invalid plan ID format" ∧
    AdminSubscriptionController.updateSubscriptionPlan st idParam body3 =
      (.error 400 "Invalid plan ID format", st) := by
  refine ⟨?_, ?_, ?_, ?_, ?_, ?_, ?_, ?_⟩ <;>
    simp [AdminSubscriptionController.getUserSubscriptionDetails,
      AdminSubscriptionController.updateUserSubscription,
      AdminSubscriptionController.deleteUserSubscription,
      AdminSubscriptionController.getTransactionLogs,
      AdminSubscriptionController.updatePaymentStatus,
      AdminSubscriptionController.getTransactionByID,
      AdminSubscriptionController.getSubscriptionPlanByID,
      AdminSubscriptionController.updateSubscriptionPlan, hne, hp]

/-- Witness for C3 at the malformed identifier `not-a-uuid`. -/
theorem malformed_uuid_returns_400_witness :
    AdminSubscriptionController.getUserSubscriptionDetails sampleStore "not-a-uuid" =
      .error 400 "Invalid subscription ID format" ∧
    AdminSubscriptionController.updateUserSubscription sampleStore "not-a-uuid" none =
      (.error 400 "Invalid subscription ID format", sampleStore, false) ∧
    AdminSubscriptionController.deleteUserSubscription sampleStore "not-a-uuid" =
      (.error 400 "Invalid subscription ID format", sampleStore) ∧
    AdminSubscriptionController.getTransactionLogs sampleStore "not-a-uuid" =
      .error 400 "Invalid subscription ID format" ∧
    AdminSubscriptionController.updatePaymentStatus sampleStore "not-a-uuid" none =
      (.error 400 "Invalid subscription ID format", sampleStore, false) ∧
    AdminSubscriptionController.getTransactionByID sampleStore "not-a-uuid" =
      .error 400 "Invalid transaction ID format" ∧
    AdminSubscriptionController.getSubscriptionPlanByID sampleStore "not-a-uuid" =
      .error 400 "Invalid plan ID format" ∧
    AdminSubscriptionController.updateSubscriptionPlan sampleStore "not-a-uuid" none =
      (.error 400 "Invalid plan ID format", sampleStore) :=
  malformed_uuid_returns_400 sampleStore "not-a-uuid" none none none
    (by decide) (by decide)

/-- C4 counterexample: a valid UUID referencing an existing plan record whose
stored feature flags are not valid JSON makes `GetSubscriptionPlanByID`
return HTTP 500, not 200 — refuting the claim for the plan-details endpoint. -/
theorem plan_details_existing_record_not_200 :
    (badFeaturesStore.plans.lookup sampleID).isSome = true ∧
    uuidParse sampleIDStr = some sampleID ∧
    AdminSubscriptionController.getSubscriptionPlanByID badFeaturesStore sampleIDStr =
      .error 500 "Error parsing plan features" := by decide

/-- C4 (amended): for every valid UUID path parameter referencing an existing
record, the subscription-details and transaction-details GET endpoints return
HTTP 200 with status `success` and that record's fields in `data`; the
plan-details endpoint does so provided the plan's stored feature flags parse
as a JSON map from string to bool. -/
theorem get_existing_record_returns_200 (st : Store) (idParam : String)
    (uid : UUID) (sub : UserSubscription) (tx : Transaction)
    (plan : SubscriptionPlan) (m : List (String × Bool))
    (hu : uuidParse idParam = some uid)
    (hs : st.subscriptions.lookup uid = some sub)
    (ht : st.transactions.lookup uid = some tx)
    (hpl : st.plans.lookup uid = some plan)
    (hm : unmarshalStringBoolMap plan.features = some m) :
    AdminSubscriptionController.getUserSubscriptionDetails st idParam =
      .ok 200 ⟨"success", "User subscription details retrieved successfully", sub⟩ ∧
    AdminSubscriptionController.getTransactionByID st idParam =
      .ok 200 ⟨"success", "Transaction details retrieved successfully", tx⟩ ∧
    AdminSubscriptionController.getSubscriptionPlanByID st idParam =
      .ok 200 ⟨"success", "Subscription plan details retrieved successfully",
        ⟨uuidString plan.id, plan.name, plan.price, formatCurrency plan.price,
         plan.description, plan.aiScanLimit, plan.validityDays, m, plan.isActive⟩⟩ := by
  have hne : idParam ≠ "" := by
    intro h
    rw [h, show uuidParse "" = none from by decide] at hu
    cases hu
  refine ⟨?_, ?_, ?_⟩
  · simp [AdminSubscriptionController.getUserSubscriptionDetails, hne, hu,
      SubscriptionService.getUserSubscriptionByID, hs]
  · simp [AdminSubscriptionController.getTransactionByID, hne, hu,
      SubscriptionService.getTransactionByID, ht]
  · simp [AdminSubscriptionController.getSubscriptionPlanByID, hne, hu,
      SubscriptionService.getSubscriptionPlanByID, hpl, hm]

/-- Witness for the amended C4 at a concrete store holding all three records. -/
theorem get_existing_record_returns_200_witness :
    AdminSubscriptionController.getUserSubscriptionDetails sampleStore sampleIDStr =
      .ok 200 ⟨"success", "User subscription details retrieved successfully",
        sampleSub⟩ ∧
    AdminSubscriptionController.getTransactionByID sampleStore sampleIDStr =
      .ok 200 ⟨"success", "Transaction details retrieved successfully", sampleTx⟩ ∧
    AdminSubscriptionController.getSubscriptionPlanByID sampleStore sampleIDStr =
      .ok 200 ⟨"success", "Subscription plan details retrieved successfully",
        ⟨uuidString samplePlan.id, samplePlan.name, samplePlan.price,
         formatCurrency samplePlan.price, samplePlan.description,
         samplePlan.aiScanLimit, samplePlan.validityDays, [("ai_scan", true)],
         samplePlan.isActive⟩⟩ :=
  get_existing_record_returns_200 sampleStore sampleIDStr sampleID sampleSub
    sampleTx samplePlan [("ai_scan", true)]
    (by decide) (by decide) (by decide) (by decide) (by decide)

/-- C5: updating an existing subscription's payment status changes only the
status field of the subscription — the returned and stored record is the old
record with just `status` replaced — and the new status is reflected in a
subsequent GET of that subscription. -/
theorem update_payment_status_changes_only_status (st st' : Store)
    (idParam : String) (uid : UUID) (sub : UserSubscription)
    (req : UpdatePaymentStatus) (c : Int) (resp : SuccessWithSubscription)
    (inv : Bool)
    (hu : uuidParse idParam = some uid)
    (hs : st.subscriptions.lookup uid = some sub)
    (hupd : AdminSubscriptionController.updatePaymentStatus st idParam (some req) =
      (.ok c resp, st', inv)) :
    resp.data = { sub with status := req.status } ∧
    AdminSubscriptionController.getUserSubscriptionDetails st' idParam =
      .ok 200 ⟨"success", "User subscription details retrieved successfully",
        { sub with status := req.status }⟩ := by
  have hne : idParam ≠ "" := by
    intro h
    rw [h, show uuidParse "" = none from by decide] at hu
    cases hu
  have hst' := congrArg (fun p => p.2.1) hupd
  have hresp := congrArg Prod.fst hupd
  simp [AdminSubscriptionController.updatePaymentStatus,
    SubscriptionService.updatePaymentStatus, hne, hu, hs] at hst' hresp
  obtain ⟨hc, hr⟩ := hresp
  subst hst'
  subst hr
  refine ⟨rfl, ?_⟩
  simp [AdminSubscriptionController.getUserSubscriptionDetails, hne, hu,
    SubscriptionService.getUserSubscriptionByID,
    lookup_updateAssoc st.subscriptions uid _ sub hs]

/-- Witness for C5: setting the sample subscription's status to `active`. -/
theorem update_payment_status_changes_only_status_witness :
    SuccessWithSubscription.data
      ⟨"success", "Payment status updated successfully",
        { sampleSub with status := "active" }⟩ =
      { sampleSub with status := "active" } ∧
    AdminSubscriptionController.getUserSubscriptionDetails
      { subscriptions := [(sampleID, { sampleSub with status := "active" })]
        transactions := [(sampleID, sampleTx)]
        plans := [(sampleID, samplePlan)] } sampleIDStr =
      .ok 200 ⟨"success", "User subscription details retrieved successfully",
        { sampleSub with status := "active" }⟩ :=
  update_payment_status_changes_only_status sampleStore
    { subscriptions := [(sampleID, { sampleSub with status := "active" })]
      transactions := [(sampleID, sampleTx)]
      plans := [(sampleID, samplePlan)] }
    sampleIDStr sampleID sampleSub ⟨"active"⟩ 200
    ⟨"success", "Payment status updated successfully",
      { sampleSub with status := "active" }⟩ true
    (by decide) (by decide) (by decide)

/-- C6: after `DELETE /admin/subscriptions/{id}` succeeds on an existing
subscription, a subsequent GET on the same ID returns HTTP 404. -/
theorem delete_then_get_returns_404 (st st' : Store) (idParam : String)
    (uid : UUID) (sub : UserSubscription) (c : Int) (r : Common)
    (hu : uuidParse idParam = some uid)
    (hs : st.subscriptions.lookup uid = some sub)
    (hdel : AdminSubscriptionController.deleteUserSubscription st idParam =
      (.ok c r, st')) :
    AdminSubscriptionController.getUserSubscriptionDetails st' idParam =
      .error 404 "Subscription not found" := by
  have hne : idParam ≠ "" := by
    intro h
    rw [h, show uuidParse "" = none from by decide] at hu
    cases hu
  have hst' := congrArg Prod.snd hdel
  simp [AdminSubscriptionController.deleteUserSubscription,
    SubscriptionService.deleteUserSubscription, hne, hu, hs] at hst'
  subst hst'
  simp [AdminSubscriptionController.getUserSubscriptionDetails, hne, hu,
    SubscriptionService.getUserSubscriptionByID, lookup_removeAssoc]

/-- Witness for C6: deleting the sample subscription, then fetching it. -/
theorem delete_then_get_returns_404_witness :
    AdminSubscriptionController.getUserSubscriptionDetails
      { subscriptions := []
        transactions := [(sampleID, sampleTx)]
        plans := [(sampleID, samplePlan)] } sampleIDStr =
      .error 404 "Subscription not found" :=
  delete_then_get_returns_404 sampleStore
    { subscriptions := []
      transactions := [(sampleID, sampleTx)]
      plans := [(sampleID, samplePlan)] }
    sampleIDStr sampleID sampleSub 200
    ⟨"success", "User subscription deleted successfully"⟩
    (by decide) (by decide) (by decide)

/-- C7: for every request with a missing identifier path parameter or a body
that fails to parse into the expected typed struct, the two body-taking
subscription handlers return HTTP 400 with a plain message and never invoke
the underlying service operation. -/
theorem bad_request_never_reaches_service (st : Store) (idParam : String)
    (body1 : Option UpdateSubscription) (body2 : Option UpdatePaymentStatus)
    (h1 : idParam = "" ∨ body1 = none) (h2 : idParam = "" ∨ body2 = none) :
    isBadRequest (AdminSubscriptionController.updateUserSubscription st
        idParam body1).1 = true ∧
    (AdminSubscriptionController.updateUserSubscription st idParam body1).2.2 =
      false ∧
    isBadRequest (AdminSubscriptionController.updatePaymentStatus st
        idParam body2).1 = true ∧
    (AdminSubscriptionController.updatePaymentStatus st idParam body2).2.2 =
      false := by
  refine ⟨?_, ?_, ?_, ?_⟩
  · rcases h1 with he | hb
    · subst he
      simp [AdminSubscriptionController.updateUserSubscription, isBadRequest]
    · subst hb
      by_cases he : idParam = ""
      · subst he
        simp [AdminSubscriptionController.updateUserSubscription, isBadRequest]
      · cases hp : uuidParse idParam <;>
          simp [AdminSubscriptionController.updateUserSubscription, he, hp,
            isBadRequest]
  · rcases h1 with he | hb
    · subst he
      simp [AdminSubscriptionController.updateUserSubscription]
    · subst hb
      by_cases he : idParam = ""
      · subst he
        simp [AdminSubscriptionController.updateUserSubscription]
      · cases hp : uuidParse idParam <;>
          simp [AdminSubscriptionController.updateUserSubscription, he, hp]
  · rcases h2 with he | hb
    · subst he
      simp [AdminSubscriptionController.updatePaymentStatus, isBadRequest]
    · subst hb
      by_cases he : idParam = ""
      · subst he
        simp [AdminSubscriptionController.updatePaymentStatus, isBadRequest]
      · cases hp : uuidParse idParam <;>
          simp [AdminSubscriptionController.updatePaymentStatus, he, hp,
            isBadRequest]
  · rcases h2 with he | hb
    · subst he
      simp [AdminSubscriptionController.updatePaymentStatus]
    · subst hb
      by_cases he : idParam = ""
      · subst he
        simp [AdminSubscriptionController.updatePaymentStatus]
      · cases hp : uuidParse idParam <;>
          simp [AdminSubscriptionController.updatePaymentStatus, he, hp]

/-- Witness for C7 at a missing identifier and unparseable bodies. -/
theorem bad_request_never_reaches_service_witness :
    isBadRequest (AdminSubscriptionController.updateUserSubscription sampleStore
        "" none).1 = true ∧
    (AdminSubscriptionController.updateUserSubscription sampleStore "" none).2.2 =
      false ∧
    isBadRequest (AdminSubscriptionController.updatePaymentStatus sampleStore
        "" none).1 = true ∧
    (AdminSubscriptionController.updatePaymentStatus sampleStore "" none).2.2 =
      false :=
  bad_request_never_reaches_service sampleStore "" none none
    (Or.inl rfl) (Or.inl rfl)

/-- C8: for a plan whose stored `Features` string is not valid JSON for a
map from string to bool, the plan detail and plan update endpoints return
HTTP 500 with an error-parsing message; when it is such valid JSON they
return HTTP 200 with the parsed feature map (for the update endpoint, on the
plan the update produced). -/
theorem plan_features_parse_outcomes (st st2 : Store) (idParam : String)
    (uid : UUID) (plan plan2 : SubscriptionPlan) (req : UpdateSubscriptionPlan)
    (hu : uuidParse idParam = some uid)
    (hpl : st.plans.lookup uid = some plan)
    (hupd : SubscriptionService.updateSubscriptionPlan st uid req =
      .ok (plan2, st2)) :
    (unmarshalStringBoolMap plan.features = none →
      AdminSubscriptionController.getSubscriptionPlanByID st idParam =
        .error 500 "Error parsing plan features") ∧
    (∀ m, unmarshalStringBoolMap plan.features = some m →
      AdminSubscriptionController.getSubscriptionPlanByID st idParam =
        .ok 200 ⟨"success", "Subscription plan details retrieved successfully",
          ⟨uuidString plan.id, plan.name, plan.price, formatCurrency plan.price,
           plan.description, plan.aiScanLimit, plan.validityDays, m,
           plan.isActive⟩⟩) ∧
    (unmarshalStringBoolMap plan2.features = none →
      AdminSubscriptionController.updateSubscriptionPlan st idParam (some req) =
        (.error 500 "Error parsing plan features", st2)) ∧
    (∀ m, unmarshalStringBoolMap plan2.features = some m →
      AdminSubscriptionController.updateSubscriptionPlan st idParam (some req) =
        (.ok 200 ⟨"success", "Subscription plan updated successfully",
          ⟨uuidString plan2.id, plan2.name, plan2.price,
           formatCurrency plan2.price, plan2.description, plan2.aiScanLimit,
           plan2.validityDays, m, plan2.isActive⟩⟩, st2)) := by
  have hne : idParam ≠ "" := by
    intro h
    rw [h, show uuidParse "" = none from by decide] at hu
    cases hu
  refine ⟨?_, ?_, ?_, ?_⟩
  · intro hm
    simp [AdminSubscriptionController.getSubscriptionPlanByID, hne, hu,
      SubscriptionService.getSubscriptionPlanByID, hpl, hm]
  · intro m hm
    simp [AdminSubscriptionController.getSubscriptionPlanByID, hne, hu,
      SubscriptionService.getSubscriptionPlanByID, hpl, hm]
  · intro hm
    simp [AdminSubscriptionController.updateSubscriptionPlan, hne, hu,
      hupd, hm]
  · intro m hm
    simp [AdminSubscriptionController.updateSubscriptionPlan, hne, hu,
      hupd, hm]

/-- Witness for C8: the sample plan with unparseable features is rejected
with 500 by the detail endpoint, and an update writing well-formed features
succeeds with the parsed map. -/
theorem plan_features_parse_outcomes_witness :
    AdminSubscriptionController.getSubscriptionPlanByID badFeaturesStore
      sampleIDStr = .error 500 "Error parsing plan features" ∧
    AdminSubscriptionController.updateSubscriptionPlan badFeaturesStore
      sampleIDStr
      (some ⟨none, none, none, none, none, some "\x7b\"x\":false\x7d", none⟩) =
      (.ok 200 ⟨"success", "Subscription plan updated successfully",
        ⟨uuidString badFeaturesPlan.id, badFeaturesPlan.name,
         badFeaturesPlan.price, formatCurrency badFeaturesPlan.price,
         badFeaturesPlan.description, badFeaturesPlan.aiScanLimit,
         badFeaturesPlan.validityDays, [("x", false)],
         badFeaturesPlan.isActive⟩⟩,
       { subscriptions := [(sampleID, sampleSub)]
         transactions := [(sampleID, sampleTx)]
         plans := [(sampleID,
           { badFeaturesPlan with features := "\x7b\"x\":false\x7d" })] }) :=
  ⟨(plan_features_parse_outcomes badFeaturesStore
      { subscriptions := [(sampleID, sampleSub)]
        transactions := [(sampleID, sampleTx)]
        plans := [(sampleID,
          { badFeaturesPlan with features := "\x7b\"x\":false\x7d" })] }
      sampleIDStr sampleID badFeaturesPlan
      { badFeaturesPlan with features := "\x7b\"x\":false\x7d" }
      ⟨none, none, none, none, none, some "\x7b\"x\":false\x7d", none⟩
      (by decide) (by decide) rfl).1 (by decide),
   (plan_features_parse_outcomes badFeaturesStore
      { subscriptions := [(sampleID, sampleSub)]
        transactions := [(sampleID, sampleTx)]
        plans := [(sampleID,
          { badFeaturesPlan with features := "\x7b\"x\":false\x7d" })] }
      sampleIDStr sampleID badFeaturesPlan
      { badFeaturesPlan with features := "\x7b\"x\":false\x7d" }
      ⟨none, none, none, none, none, some "\x7b\"x\":false\x7d", none⟩
      (by decide) (by decide) rfl).2.2.2 [("x", false)] (by decide)⟩

/-- C9: the nutrition schema defines a service with exactly six RPCs — all
operating on the single `BahanMakanan` entity (get-all, get-by-id,
get-by-code, get-by-mentah-olahan, get-by-kelompok, update) — over a record
type with a fixed set of 27 numeric/string fields, most of them optional. -/
theorem bahan_makanan_schema_shape :
    bahanMakananServiceRpcs.length = 6 ∧
    bahanMakananServiceRpcs.map ProtoRpc.name =
      ["GetAllBahanMakanan", "GetBahanMakananByKode", "GetBahanMakananById",
       "GetBahanMakananByMentahOlahan", "GetBahanMakananByKelompok",
       "UpdateBahanMakanan"] ∧
    bahanMakananServiceRpcs.all rpcReturnsBahanMakanan = true ∧
    bahanMakananFields.length = 27 ∧
    (bahanMakananFields.all fun f =>
      f.scalar == .dbl || f.scalar == .u32 || f.scalar == .str) = true ∧
    bahanMakananFields.length <
      2 * (bahanMakananFields.filter fun f => f.optionalField).length := by
  decide

/-- C10: every successful plan response of `GetSubscriptionPlanByID` and
`UpdateSubscriptionPlan` carries `priceFormatted` equal to `Rp ` followed by
the base-10 decimal representation of its integer `price` field. -/
theorem priceFormatted_is_Rp_price (st1 st2 st2' : Store) (id1 id2 : String)
    (body : Option UpdateSubscriptionPlan) (c1 c2 : Int)
    (r1 r2 : SuccessWithSubscriptionPlan)
    (h1 : AdminSubscriptionController.getSubscriptionPlanByID st1 id1 =
      .ok c1 r1)
    (h2 : AdminSubscriptionController.updateSubscriptionPlan st2 id2 body =
      (.ok c2 r2, st2')) :
    r1.data.priceFormatted = "Rp " ++ toString r1.data.price ∧
    r2.data.priceFormatted = "Rp " ++ toString r2.data.price := by
  constructor
  · unfold AdminSubscriptionController.getSubscriptionPlanByID at h1
    split at h1
    · cases h1
    · split at h1
      · cases h1
      · split at h1
        · cases h1
        · split at h1
          · cases h1
          · cases h1
            rfl
  · have hfst := congrArg Prod.fst h2
    unfold AdminSubscriptionController.updateSubscriptionPlan at hfst
    split at hfst
    · cases hfst
    · split at hfst
      · cases hfst
      · split at hfst
        · cases hfst
        · split at hfst
          · cases hfst
          · split at hfst
            · cases hfst
            · cases hfst
              rfl

/-- Witness for C10: the sample plan fetched and updated with an empty
patch body. -/
theorem priceFormatted_is_Rp_price_witness :
    (SuccessWithSubscriptionPlan.data
      ⟨"success", "Subscription plan details retrieved successfully",
        ⟨uuidString samplePlan.id, samplePlan.name, samplePlan.price,
         formatCurrency samplePlan.price, samplePlan.description,
         samplePlan.aiScanLimit, samplePlan.validityDays, [("ai_scan", true)],
         samplePlan.isActive⟩⟩).priceFormatted =
      "Rp " ++ toString (SuccessWithSubscriptionPlan.data
        ⟨"success", "Subscription plan details retrieved successfully",
          ⟨uuidString samplePlan.id, samplePlan.name, samplePlan.price,
           formatCurrency samplePlan.price, samplePlan.description,
           samplePlan.aiScanLimit, samplePlan.validityDays, [("ai_scan", true)],
           samplePlan.isActive⟩⟩).price ∧
    (SuccessWithSubscriptionPlan.data
      ⟨"success", "Subscription plan updated successfully",
        ⟨uuidString samplePlan.id, samplePlan.name, samplePlan.price,
         formatCurrency samplePlan.price, samplePlan.description,
         samplePlan.aiScanLimit, samplePlan.validityDays, [("ai_scan", true)],
         samplePlan.isActive⟩⟩).priceFormatted =
      "Rp " ++ toString (SuccessWithSubscriptionPlan.data
        ⟨"success", "Subscription plan updated successfully",
          ⟨uuidString samplePlan.id, samplePlan.name, samplePlan.price,
           formatCurrency samplePlan.price, samplePlan.description,
           samplePlan.aiScanLimit, samplePlan.validityDays, [("ai_scan", true)],
           samplePlan.isActive⟩⟩).price :=
  priceFormatted_is_Rp_price sampleStore sampleStore sampleStore
    sampleIDStr sampleIDStr (some ⟨none, none, none, none, none, none, none⟩)
    200 200
    ⟨"success", "Subscription plan details retrieved successfully",
      ⟨uuidString samplePlan.id, samplePlan.name, samplePlan.price,
       formatCurrency samplePlan.price, samplePlan.description,
       samplePlan.aiScanLimit, samplePlan.validityDays, [("ai_scan", true)],
       samplePlan.isActive⟩⟩
    ⟨"success", "Subscription plan updated successfully",
      ⟨uuidString samplePlan.id, samplePlan.name, samplePlan.price,
       formatCurrency samplePlan.price, samplePlan.description,
       samplePlan.aiScanLimit, samplePlan.validityDays, [("ai_scan", true)],
       samplePlan.isActive⟩⟩
    rfl rfl
